import Mathlib

/-!
Shallow embedding of the core of the Resume-Builder backend
(`src/services/aiService.js`, second `AIService` class, lines 679-1130,
and `src/utils/httpClient.js`), together with proofs about the claims of
the natural-language specification.

JavaScript values reaching the response-repair pipeline are modelled by
`JsonVal` (with an explicit `undefined` constructor for JavaScript
`undefined`, which `JSON.parse` itself never produces but which property
access on a missing key does).  JSON numbers are carried as `Int`: no
claim depends on fractional values, only on JavaScript truthiness of
numbers.  Fallible JavaScript code (property access on `null`/`undefined`
throws a `TypeError`; `AppError` raised by the service) is modelled with
`Except JsErr`.  The clock read `new Date().getFullYear()` is passed in
explicitly as the `currentYear` argument.
-/

namespace ResumeBuilder

/-- A JavaScript value as it can appear in the repair pipeline: the result
of `JSON.parse` on the model output, or `undefined` arising from access to
a missing object property. -/
inductive JsonVal where
  | undefined
  | null
  | bool (b : Bool)
  | num (n : Int)
  | str (s : String)
  | arr (elems : List JsonVal)
  | obj (fields : List (String × JsonVal))

/-- Errors that the modelled JavaScript can raise: `AppError(message,
statusCode, code)` from `src/middleware/errorHandler.js`, and the runtime
`TypeError` raised by property access on `null`/`undefined`. -/
inductive JsErr where
  | appError (message : String) (statusCode : Nat) (code : String)
  | typeError (message : String)

/-- The `message` property of a JavaScript error (used when an error is
re-wrapped). -/
def jsErrMessage : JsErr → String
  | .appError m _ _ => m
  | .typeError m => m

/-- TypeError raised by `null.someProperty`. -/
def typeErrorNull : JsErr := .typeError "Cannot read properties of null"

/-- TypeError raised by `undefined.someProperty` or calling a method of
`undefined` (for example `undefined.toLowerCase()`). -/
def typeErrorUndefined : JsErr := .typeError "Cannot read properties of undefined"

/-- JavaScript truthiness of a value: `undefined`, `null`, `false`, `0`
and `""` are falsy, everything else (including `[]` and `{}`) is truthy. -/
def truthy : JsonVal → Bool
  | .undefined => false
  | .null => false
  | .bool b => b
  | .num n => n != 0
  | .str s => s != ""
  | .arr _ => true
  | .obj _ => true

/-- JavaScript `a || b`. -/
def jsOr (a b : JsonVal) : JsonVal := if truthy a then a else b

/-- Lookup of an object field, with JavaScript semantics: a missing key
yields `undefined`. -/
def lookupField : List (String × JsonVal) → String → JsonVal
  | [], _ => .undefined
  | (k, v) :: rest, key => if k = key then v else lookupField rest key

/-- JavaScript property access `v.key` on values on which it does not
throw: objects look the key up, every other non-nullish value has none of
the schema keys as a built-in property, so access yields `undefined`. -/
def getField : JsonVal → String → JsonVal
  | .obj fields, key => lookupField fields key
  | _, _ => .undefined

/-- Property access on `null` or `undefined` throws a TypeError in
JavaScript; this returns the error raised, or `none` when access is safe. -/
def jsPropAccessError : JsonVal → Option JsErr
  | .null => some typeErrorNull
  | .undefined => some typeErrorUndefined
  | _ => none

/-- JavaScript `Array.isArray(v)`. -/
def isArr : JsonVal → Bool
  | .arr _ => true
  | _ => false

/-- JavaScript `Array.isArray(v) && v.length > 0`. -/
def isNonEmptyArr : JsonVal → Bool
  | .arr (_ :: _) => true
  | _ => false

/-- A value is present and neither `null` nor `undefined`. -/
def presentNonNull : JsonVal → Bool
  | .null => false
  | .undefined => false
  | _ => true

/-- The JavaScript value of an optional string property of `personalInfo`
(`undefined` when the property is absent). -/
def optStr : Option String → JsonVal
  | some s => .str s
  | none => .undefined

/-- The `personalInfo` argument (the contact info of the
CompletionRequest): `{fullName, email, phone?, location?, linkedinUrl?}`.
Absent properties are `none`. -/
structure PersonalInfo where
  fullName : Option String
  email : Option String
  phone : Option String
  location : Option String
  linkedinUrl : Option String

/-- Characters matched by the JavaScript regexp class `\s` (the common
ones; the schema names and witness inputs only ever use plain spaces). -/
def jsWs (c : Char) : Bool :=
  c = ' ' || c = '\t' || c = '\n' || c = '\r' || c.toNat = 11 || c.toNat = 12 ||
  c.toNat = 0xa0 || c.toNat = 0xfeff

/-- One pass of `replace(/\s+/g, "-")`: each maximal run of whitespace
becomes a single dash.  The Bool flag records whether the previous
character was part of a whitespace run. -/
def collapseWsAux : Bool → List Char → List Char
  | _, [] => []
  | inRun, c :: cs =>
    if jsWs c then
      (if inRun then [] else ['-']) ++ collapseWsAux true cs
    else
      c :: collapseWsAux false cs

/-- `fullName.toLowerCase().replace(/\s+/g, "-")` from the synthesized
LinkedIn URL. -/
def slugify (fullName : String) : String :=
  String.mk (collapseWsAux false (fullName.toList.map Char.toLower))

/-- The synthesized LinkedIn URL
`https://linkedin.com/in/${fullName.toLowerCase().replace(/\s+/g, "-")}`. -/
def linkedinSlugUrl (fullName : String) : String :=
  "https://linkedin.com/in/" ++ slugify fullName

/-- Evaluation of the template literal with `personalInfo.fullName` a JS
value that may be `undefined`: dereferencing `undefined` throws. -/
def synthLinkedinUrl (pi : PersonalInfo) : Except JsErr JsonVal :=
  match pi.fullName with
  | some fn => .ok (.str (linkedinSlugUrl fn))
  | none => .error typeErrorUndefined

/-- The default mobile numbers used by `validateAndFixResponse` and
`createFallbackResponse`: `personalInfo.phone ? [personalInfo.phone] : []`. -/
def defaultMobileNumbers (pi : PersonalInfo) : JsonVal :=
  if truthy (optStr pi.phone) then .arr [optStr pi.phone] else .arr []

/-- JavaScript `s.split(" ")[0]`: the prefix of `s` before its first
space (splitting on a single-space separator always yields at least one
element, whose value is exactly this prefix). -/
def firstWord (s : String) : String :=
  String.mk (s.toList.takeWhile (fun c => c ≠ ' '))

/-- The default professional summary synthesized by
`validateAndFixResponse`, interpolating `personalInfo.fullName.split(" ")[0]`. -/
def defaultSummaryText (fullName : String) : String :=
  "Dynamic " ++ firstWord fullName ++
  " with proven expertise in delivering exceptional results and driving business growth. Combines strong analytical skills with creative problem-solving to exceed organizational objectives. Committed to continuous learning and professional excellence while contributing to team success and innovation."

/-- The generic default `professionalExperience` array substituted by
`validateAndFixResponse`. -/
def defaultValidateExperience : JsonVal :=
  .arr [.obj [
    ("jobName", .str "Professional Experience Inc."),
    ("term", .str "2020 - Present"),
    ("jobDesignation", .str "Senior Professional"),
    ("jobDetails", .arr [
      .str "Delivered measurable results through strategic planning and execution of key initiatives",
      .str "Collaborated with stakeholders to identify opportunities and implement solutions that drive business value",
      .str "Applied industry best practices and innovative approaches to exceed performance targets and quality standards"])]]

/-- The generic default `skills` array substituted by
`validateAndFixResponse`. -/
def defaultValidateSkills : JsonVal :=
  .arr [
    .obj [
      ("skillName", .str "Professional Competencies"),
      ("skills", .arr [.str "Strategic Planning", .str "Project Management",
        .str "Process Improvement", .str "Stakeholder Engagement",
        .str "Data Analysis", .str "Problem Solving"])],
    .obj [
      ("skillName", .str "Technical Skills"),
      ("skills", .arr [.str "Microsoft Office Suite", .str "Data Visualization",
        .str "Business Intelligence", .str "CRM Systems", .str "Analytics Tools"])]]

/-- The generic default `education` array substituted by
`validateAndFixResponse`, with tenure
`${new Date().getFullYear() - 8} - ${new Date().getFullYear() - 4}`. -/
def defaultValidateEducation (currentYear : Int) : JsonVal :=
  .arr [.obj [
    ("degree", .str "Bachelor of Science"),
    ("collegeName", .str "University"),
    ("tenure", .str (toString (currentYear - 8) ++ " - " ++ toString (currentYear - 4)))]]

/-- Evaluation of
`optimizedResumeData.linkedinUrl || personalInfo.linkedinUrl ||
`https://linkedin.com/in/${personalInfo.fullName.toLowerCase()...}``:
the template literal is only evaluated when the first two operands are
falsy, and it throws when `fullName` is `undefined`. -/
def fixLinkedinUrl (od : JsonVal) (pi : PersonalInfo) : Except JsErr JsonVal :=
  if truthy (getField od "linkedinUrl") then .ok (getField od "linkedinUrl")
  else if truthy (optStr pi.linkedinUrl) then .ok (optStr pi.linkedinUrl)
  else synthLinkedinUrl pi

/-- Evaluation of `optimizedResumeData.professionalSummary || template`,
where the template dereferences `personalInfo.fullName` via
`.split(" ")[0]` and hence throws when `fullName` is `undefined`. -/
def fixProfessionalSummary (od : JsonVal) (pi : PersonalInfo) : Except JsErr JsonVal :=
  if truthy (getField od "professionalSummary") then .ok (getField od "professionalSummary")
  else
    match pi.fullName with
    | some fn => .ok (.str (defaultSummaryText fn))
    | none => .error typeErrorUndefined

/-- `validateAndFixResponse(optimizedResumeData, personalInfo)`
(aiService.js lines 1075-1125).  The first access
`optimizedResumeData.name` throws a TypeError when the parsed data is
`null` (or `undefined`); otherwise the validated object is assembled
field by field in source order, with the two defaults that dereference
`personalInfo.fullName` able to throw. -/
def validateAndFixResponse (od : JsonVal) (pi : PersonalInfo) (currentYear : Int) :
    Except JsErr JsonVal :=
  match jsPropAccessError od with
  | some e => .error e
  | none =>
    match fixLinkedinUrl od pi with
    | .error e => .error e
    | .ok linkedinUrl =>
      match fixProfessionalSummary od pi with
      | .error e => .error e
      | .ok professionalSummary =>
        .ok (.obj [
          ("name", jsOr (getField od "name") (optStr pi.fullName)),
          ("email", jsOr (getField od "email") (optStr pi.email)),
          ("mobileNumbers",
            if isNonEmptyArr (getField od "mobileNumbers") then getField od "mobileNumbers"
            else defaultMobileNumbers pi),
          ("linkedinUrl", linkedinUrl),
          ("professionalSummary", professionalSummary),
          ("professionalExperience",
            if isNonEmptyArr (getField od "professionalExperience") then getField od "professionalExperience"
            else defaultValidateExperience),
          ("skills",
            if isNonEmptyArr (getField od "skills") then getField od "skills"
            else defaultValidateSkills),
          ("education",
            if isNonEmptyArr (getField od "education") then getField od "education"
            else defaultValidateEducation currentYear)])

/-- The constant professional summary of the fallback object. -/
def fallbackSummaryText : String :=
  "Results-driven professional with 5+ years of progressive experience delivering high-impact solutions and driving measurable business outcomes. Demonstrated expertise in cross-functional collaboration, process optimization, and strategic problem-solving. Proven track record of exceeding performance targets while maintaining strong stakeholder relationships and fostering team success."

/-- The constant `professionalExperience` array of the fallback object. -/
def fallbackExperience : JsonVal :=
  .arr [
    .obj [
      ("jobName", .str "Technology Solutions Inc."),
      ("term", .str "01/2021 - Present"),
      ("jobDesignation", .str "Senior Professional"),
      ("jobDetails", .arr [
        .str "Spearheaded implementation of strategic initiatives resulting in 25% efficiency improvement and $200K+ annual cost savings",
        .str "Led cross-functional team of 6 professionals to deliver 15+ high-priority projects ahead of schedule and under budget",
        .str "Optimized existing processes and workflows, reducing operational overhead by 30% while maintaining quality standards",
        .str "Collaborated with senior leadership to develop and execute data-driven strategies that increased customer satisfaction by 40%",
        .str "Mentored junior team members and implemented best practices that improved team productivity by 20%"])],
    .obj [
      ("jobName", .str "Innovation Corp"),
      ("term", .str "06/2019 - 12/2020"),
      ("jobDesignation", .str "Professional Associate"),
      ("jobDetails", .arr [
        .str "Executed complex projects managing budgets up to $500K while consistently meeting deadlines and quality requirements",
        .str "Developed and maintained relationships with 50+ key stakeholders, ensuring 95% client retention rate",
        .str "Implemented process improvements that reduced project delivery time by 35% and increased client satisfaction scores",
        .str "Conducted comprehensive analysis and reporting that informed strategic decisions for executive leadership team"])]]

/-- The constant `skills` array of the fallback object. -/
def fallbackSkills : JsonVal :=
  .arr [
    .obj [
      ("skillName", .str "Core Professional Skills"),
      ("skills", .arr [.str "Project Management", .str "Strategic Planning",
        .str "Process Optimization", .str "Stakeholder Management", .str "Data Analysis"])],
    .obj [
      ("skillName", .str "Technical Competencies"),
      ("skills", .arr [.str "Microsoft Office Suite", .str "Data Visualization",
        .str "CRM Systems", .str "Business Intelligence Tools"])],
    .obj [
      ("skillName", .str "Leadership & Collaboration"),
      ("skills", .arr [.str "Team Leadership", .str "Cross-functional Collaboration",
        .str "Mentoring", .str "Change Management", .str "Communication"])]]

/-- `createFallbackResponse(personalInfo)` (aiService.js lines
1014-1073): a deterministic object built from the contact info with
generic placeholder content; `graduationYear = currentYear - 5` and the
education tenure is `${graduationYear - 4} - ${graduationYear}`.  The
`linkedinUrl` field dereferences `fullName` when
`personalInfo.linkedinUrl` is falsy, and so can throw. -/
def createFallbackResponse (pi : PersonalInfo) (currentYear : Int) : Except JsErr JsonVal :=
  match (if truthy (optStr pi.linkedinUrl) then .ok (optStr pi.linkedinUrl)
         else synthLinkedinUrl pi : Except JsErr JsonVal) with
  | .error e => .error e
  | .ok linkedinUrl =>
    .ok (.obj [
      ("name", optStr pi.fullName),
      ("email", optStr pi.email),
      ("mobileNumbers", defaultMobileNumbers pi),
      ("linkedinUrl", linkedinUrl),
      ("professionalSummary", .str fallbackSummaryText),
      ("professionalExperience", fallbackExperience),
      ("skills", fallbackSkills),
      ("education", .arr [.obj [
        ("degree", .str "Bachelor of Science in Business Administration"),
        ("collegeName", .str "State University"),
        ("tenure", .str (toString (currentYear - 5 - 4) ++ " - " ++ toString (currentYear - 5)))]])])

/-- `parseResumeResponse(response, personalInfo)` (aiService.js lines
979-1011), abstracted at the `JSON.parse` boundary: `parsed` is the
outcome of `JSON.parse` on the cleaned response text (`some v` when the
parse succeeded with value `v`, `none` when it threw).  On parse failure
the fallback object is built (outside the try/catch, so a `TypeError`
there propagates) and either way the result is passed through
`validateAndFixResponse`. -/
def parseResumeResponse (parsed : Option JsonVal) (pi : PersonalInfo) (currentYear : Int) :
    Except JsErr JsonVal :=
  match parsed with
  | some v => validateAndFixResponse v pi currentYear
  | none =>
    match createFallbackResponse pi currentYear with
    | .error e => .error e
    | .ok fb => validateAndFixResponse fb pi currentYear

/-- The retry loop body of `callGeminiAPI` (aiService.js lines 690-716).
`ts` is the transport-and-envelope oracle: `ts i` is the outcome of
attempt `i` (1-based), covering `makeAPIRequest` plus `parseResponse` —
`.error msg` on any network/timeout/non-2xx/envelope/safety failure,
`.ok c` on a successful attempt producing content `c`.  `fuel` is the
number of attempts remaining after the current one (so the loop is
entered with `fuel = retries - attempt`).  Returns the loop outcome, the
number of transport invocations, and the list of backoff delays (in
milliseconds, `Math.pow(2, attempt) * 1000`) actually slept, in order. -/
def callLoopFuel {α : Type} (ts : Nat → Except String α) (attempt : Nat) :
    Nat → Except String α × Nat × List Nat
  | 0 => (ts attempt, 1, [])
  | fuel + 1 =>
    match ts attempt with
    | .ok c => (.ok c, 1, [])
    | .error _ =>
      let r := callLoopFuel ts (attempt + 1) fuel
      (r.1, r.2.1 + 1, 2 ^ attempt * 1000 :: r.2.2)

/-- The `AppError` thrown when no API key is configured
(`AI_API_KEY_MISSING`). -/
def configErrorApp : JsErr :=
  .appError "Gemini API key not configured" 500 "AI_API_KEY_MISSING"

/-- The `AppError` thrown after exhausting the retries
(`AI_API_FAILED`), wrapping the message of the last underlying error. -/
def exhaustedErrorApp (retries : Nat) (lastMsg : String) : JsErr :=
  .appError ("AI service failed after " ++ toString retries ++ " attempts: " ++ lastMsg)
    500 "AI_API_FAILED"

/-- `callGeminiAPI(prompt, options)` (aiService.js lines 679-722),
abstracted over the transport oracle `ts`.  Fails fast when the
configured API key is falsy (absent or empty); otherwise runs up to
`retries` sequential attempts with exponential backoff, and on
exhaustion throws `AI_API_FAILED` wrapping the last error.  (With
`retries = 0` the loop never runs and `lastError.message` dereferences
`undefined`.)  Returns the result together with the number of transport
invocations and the backoff delays slept, in milliseconds. -/
def callGeminiAPI {α : Type} (apiKey : Option String) (retries : Nat)
    (ts : Nat → Except String α) : Except JsErr α × Nat × List Nat :=
  if !truthy (optStr apiKey) then (.error configErrorApp, 0, [])
  else
    match retries with
    | 0 => (.error typeErrorUndefined, 0, [])
    | r + 1 =>
      match callLoopFuel ts 1 r with
      | (.ok c, n, ds) => (.ok c, n, ds)
      | (.error msg, n, ds) => (.error (exhaustedErrorApp (r + 1) msg), n, ds)

/-- The catch-all in `optimizeResume` re-wraps any error as
`AppError("Failed to optimize resume: " + error.message, 500,
"RESUME_OPTIMIZATION_FAILED")`. -/
def wrapOptimizeError (e : JsErr) : JsErr :=
  .appError ("Failed to optimize resume: " ++ jsErrMessage e) 500 "RESUME_OPTIMIZATION_FAILED"

/-- `optimizeResume(jobDescription, resumeContent, personalInfo)`
(aiService.js lines 816-843) — the spec's `generate()`.  The transport
oracle here yields, for a successful attempt, the outcome of
`JSON.parse` on the cleaned body text (`none` = parse threw).  Returns
the result, the number of transport invocations and the backoff delays. -/
def optimizeResume (apiKey : Option String) (retries : Nat)
    (ts : Nat → Except String (Option JsonVal)) (pi : PersonalInfo) (currentYear : Int) :
    Except JsErr JsonVal × Nat × List Nat :=
  match callGeminiAPI apiKey retries ts with
  | (.error e, n, ds) => (.error (wrapOptimizeError e), n, ds)
  | (.ok parsed, n, ds) =>
    match parseResumeResponse parsed pi currentYear with
    | .ok r => (.ok r, n, ds)
    | .error e => (.error (wrapOptimizeError e), n, ds)

/-! ### The HTTP client module (`src/utils/httpClient.js`) -/

/-- The three transport mechanisms of `initializeHttpClient`. -/
inductive ClientKind where
  | nodeFetch
  | builtinFetch
  | httpsFallback
deriving DecidableEq

/-- Which transports can initialize in the current process:
`require("node-fetch")` may throw (module not installed), the built-in
`fetch` may be undefined (Node < 18); the raw `https`/`http` module
fallback always initializes (those are core Node modules). -/
structure HttpEnv where
  nodeFetchAvailable : Bool
  builtinFetchAvailable : Bool

/-- Whether a given transport mechanism initializes without error in the
environment. -/
def clientAvailable (env : HttpEnv) : ClientKind → Bool
  | .nodeFetch => env.nodeFetchAvailable
  | .builtinFetch => env.builtinFetchAvailable
  | .httpsFallback => true

/-- The preference order actually tried by `initializeHttpClient`
(httpClient.js lines 9-121): `node-fetch`, then built-in `fetch`, then
the raw `https` module fallback. -/
def codeClientOrder : List ClientKind := [.nodeFetch, .builtinFetch, .httpsFallback]

/-- The preference order in the spec's words: "highest-level first: a
standard fetch-like API, then a polyfill, then a raw socket-level
HTTP/HTTPS client".  Definition follows the spec, for comparison with
the source-derived `initializeHttpClient`. -/
def claimedClientOrder : List ClientKind := [.builtinFetch, .nodeFetch, .httpsFallback]

/-- `initializeHttpClient()` (httpClient.js lines 9-121): try
`node-fetch`, on failure the built-in `fetch`, on failure the raw
`https`-module client (which always initializes). -/
def initializeHttpClient (env : HttpEnv) : Option ClientKind :=
  if env.nodeFetchAvailable then some .nodeFetch
  else if env.builtinFetchAvailable then some .builtinFetch
  else some .httpsFallback

/-- The selection the spec's sentence describes: the first mechanism of
the claimed preference order that initializes without error. -/
def claimedInitialize (env : HttpEnv) : Option ClientKind :=
  claimedClientOrder.find? (clientAvailable env)

/-- Process-wide module state: the `httpClient` binding set at module
load (httpClient.js lines 123-129) and never reassigned afterwards. -/
structure ProcState where
  httpClient : Option ClientKind

/-- Module-load initialization of `httpClient` (httpClient.js lines
123-129). -/
def moduleLoad (env : HttpEnv) : ProcState :=
  ⟨initializeHttpClient env⟩

/-- `makeRequest(url, options)` (httpClient.js lines 132-180), reduced
to its use of the binding: it throws when `httpClient` is null and
otherwise issues the request through the bound client; it never
reassigns the binding.  The result records which client served the
request. -/
def makeRequest (s : ProcState) : ProcState × Except String ClientKind :=
  match s.httpClient with
  | none => (s, .error "HTTP client not initialized. Please check your Node.js environment.")
  | some c => (s, .ok c)

/-- A sequence of `n` `makeRequest` calls in one process, threading the
module state. -/
def runRequests (s : ProcState) : Nat → ProcState × List (Except String ClientKind)
  | 0 => (s, [])
  | n + 1 =>
    ((runRequests (makeRequest s).1 n).1,
      (makeRequest s).2 :: (runRequests (makeRequest s).1 n).2)

/-! ### Schema predicates and closed forms used by the theorems -/

/-- The eight documented top-level fields of a StructuredResume, in the
order `validateAndFixResponse` emits them. -/
def resumeKeys : List String :=
  ["name", "email", "mobileNumbers", "linkedinUrl", "professionalSummary",
   "professionalExperience", "skills", "education"]

/-- The key list of an object value. -/
def keysOf : JsonVal → List String
  | .obj fields => fields.map Prod.fst
  | _ => []

/-- A value is a string. -/
def isStr : JsonVal → Bool
  | .str _ => true
  | _ => false

/-- A value is an array of strings. -/
def isArrOfStr : JsonVal → Bool
  | .arr xs => xs.all isStr
  | _ => false

/-- Documented shape of one `professionalExperience` element. -/
def expEntryOk (e : JsonVal) : Bool :=
  isStr (getField e "jobName") && isStr (getField e "term") &&
  isStr (getField e "jobDesignation") && isArrOfStr (getField e "jobDetails")

/-- Documented shape of one `skills` group. -/
def skillEntryOk (e : JsonVal) : Bool :=
  isStr (getField e "skillName") && isArrOfStr (getField e "skills")

/-- Documented shape of one `education` element. -/
def eduEntryOk (e : JsonVal) : Bool :=
  isStr (getField e "degree") && isStr (getField e "collegeName") &&
  isStr (getField e "tenure")

/-- A value matches an array whose elements all satisfy `p`. -/
def arrAll (p : JsonVal → Bool) : JsonVal → Bool
  | .arr xs => xs.all p
  | _ => false

/-- Full documented well-formedness of a StructuredResume, down to the
leaves: exactly the eight fields, scalar fields strings, sequence fields
arrays whose elements have the documented shape (so in particular no
null/undefined leaf anywhere). -/
def structuredResumeWellFormed (r : JsonVal) : Bool :=
  keysOf r == resumeKeys &&
  isStr (getField r "name") && isStr (getField r "email") &&
  isArrOfStr (getField r "mobileNumbers") &&
  isStr (getField r "linkedinUrl") && isStr (getField r "professionalSummary") &&
  arrAll expEntryOk (getField r "professionalExperience") &&
  arrAll skillEntryOk (getField r "skills") &&
  arrAll eduEntryOk (getField r "education")

/-- The guarantee the repair stage actually provides at the top level:
exactly the eight fields, each present and neither null nor undefined,
and the four sequence fields genuine arrays.  (Scalar fields need not be
strings and array elements are not inspected.) -/
def topLevelOk (r : JsonVal) : Bool :=
  keysOf r == resumeKeys &&
  presentNonNull (getField r "name") && presentNonNull (getField r "email") &&
  isArr (getField r "mobileNumbers") &&
  presentNonNull (getField r "linkedinUrl") &&
  presentNonNull (getField r "professionalSummary") &&
  isArr (getField r "professionalExperience") &&
  isArr (getField r "skills") && isArr (getField r "education")

/-- Closed form of the `linkedinUrl` field computed by
`validateAndFixResponse` when `personalInfo.fullName` is the string
`fn`. -/
def linkedinValue (od : JsonVal) (pi : PersonalInfo) (fn : String) : JsonVal :=
  if truthy (getField od "linkedinUrl") then getField od "linkedinUrl"
  else if truthy (optStr pi.linkedinUrl) then optStr pi.linkedinUrl
  else .str (linkedinSlugUrl fn)

/-- Closed form of the `professionalSummary` field computed by
`validateAndFixResponse` when `personalInfo.fullName` is the string
`fn`. -/
def summaryValue (od : JsonVal) (fn : String) : JsonVal :=
  if truthy (getField od "professionalSummary") then getField od "professionalSummary"
  else .str (defaultSummaryText fn)

/-- Closed form of the object returned by `validateAndFixResponse` when
`personalInfo.fullName` is the string `fn` (in which case no branch
throws). -/
def validatedObj (od : JsonVal) (pi : PersonalInfo) (fn : String) (currentYear : Int) : JsonVal :=
  .obj [
    ("name", jsOr (getField od "name") (optStr pi.fullName)),
    ("email", jsOr (getField od "email") (optStr pi.email)),
    ("mobileNumbers",
      if isNonEmptyArr (getField od "mobileNumbers") then getField od "mobileNumbers"
      else defaultMobileNumbers pi),
    ("linkedinUrl", linkedinValue od pi fn),
    ("professionalSummary", summaryValue od fn),
    ("professionalExperience",
      if isNonEmptyArr (getField od "professionalExperience") then getField od "professionalExperience"
      else defaultValidateExperience),
    ("skills",
      if isNonEmptyArr (getField od "skills") then getField od "skills"
      else defaultValidateSkills),
    ("education",
      if isNonEmptyArr (getField od "education") then getField od "education"
      else defaultValidateEducation currentYear)]

/-- Closed form of the object returned by `createFallbackResponse` when
`personalInfo.fullName` is the string `fn` (in which case it does not
throw). -/
def fallbackObj (pi : PersonalInfo) (fn : String) (currentYear : Int) : JsonVal :=
  .obj [
    ("name", optStr pi.fullName),
    ("email", optStr pi.email),
    ("mobileNumbers", defaultMobileNumbers pi),
    ("linkedinUrl",
      if truthy (optStr pi.linkedinUrl) then optStr pi.linkedinUrl
      else .str (linkedinSlugUrl fn)),
    ("professionalSummary", .str fallbackSummaryText),
    ("professionalExperience", fallbackExperience),
    ("skills", fallbackSkills),
    ("education", .arr [.obj [
      ("degree", .str "Bachelor of Science in Business Administration"),
      ("collegeName", .str "State University"),
      ("tenure", .str (toString (currentYear - 5 - 4) ++ " - " ++ toString (currentYear - 5)))]])]

/-! ### Helper lemmas about the repair stage -/

lemma truthy_presentNonNull (v : JsonVal) (h : truthy v = true) : presentNonNull v = true := by
  cases v <;> simp_all [truthy, presentNonNull]

lemma presentNonNull_jsOr_str (a : JsonVal) (s : String) :
    presentNonNull (jsOr a (.str s)) = true := by
  unfold jsOr
  split_ifs with h
  · exact truthy_presentNonNull a h
  · rfl

lemma isNonEmptyArr_isArr (v : JsonVal) (h : isNonEmptyArr v = true) : isArr v = true := by
  cases v <;> simp_all [isNonEmptyArr, isArr]

lemma isArr_defaultMobileNumbers (pi : PersonalInfo) : isArr (defaultMobileNumbers pi) = true := by
  unfold defaultMobileNumbers
  split_ifs <;> rfl

lemma fixLinkedinUrl_eq (od : JsonVal) (pi : PersonalInfo) (fn : String)
    (h : pi.fullName = some fn) :
    fixLinkedinUrl od pi = .ok (linkedinValue od pi fn) := by
  unfold fixLinkedinUrl linkedinValue synthLinkedinUrl
  rw [h]
  split_ifs <;> rfl

lemma fixProfessionalSummary_eq (od : JsonVal) (pi : PersonalInfo) (fn : String)
    (h : pi.fullName = some fn) :
    fixProfessionalSummary od pi = .ok (summaryValue od fn) := by
  unfold fixProfessionalSummary summaryValue
  rw [h]
  split_ifs <;> rfl

lemma jsPropAccessError_none (od : JsonVal) (h : presentNonNull od = true) :
    jsPropAccessError od = none := by
  cases od <;> simp_all [presentNonNull, jsPropAccessError]

/-- Closed form of `validateAndFixResponse`: with `fullName` present as a
string and the parsed data not nullish, no branch throws and the result
is `validatedObj`. -/
lemma validateAndFixResponse_eq (od : JsonVal) (pi : PersonalInfo) (fn : String)
    (cy : Int) (hod : presentNonNull od = true) (h : pi.fullName = some fn) :
    validateAndFixResponse od pi cy = .ok (validatedObj od pi fn cy) := by
  unfold validateAndFixResponse
  rw [jsPropAccessError_none od hod, fixLinkedinUrl_eq od pi fn h,
    fixProfessionalSummary_eq od pi fn h]
  rfl

/-- Closed form of `createFallbackResponse` when `fullName` is present. -/
lemma createFallbackResponse_eq (pi : PersonalInfo) (fn : String) (cy : Int)
    (h : pi.fullName = some fn) :
    createFallbackResponse pi cy = .ok (fallbackObj pi fn cy) := by
  unfold createFallbackResponse fallbackObj synthLinkedinUrl
  rw [h]
  split_ifs <;> rfl

lemma presentNonNull_linkedinValue (od : JsonVal) (pi : PersonalInfo) (fn : String) :
    presentNonNull (linkedinValue od pi fn) = true := by
  unfold linkedinValue
  split_ifs with h1 h2
  · exact truthy_presentNonNull _ h1
  · exact truthy_presentNonNull _ h2
  · rfl

lemma presentNonNull_summaryValue (od : JsonVal) (fn : String) :
    presentNonNull (summaryValue od fn) = true := by
  unfold summaryValue
  split_ifs with h1
  · exact truthy_presentNonNull _ h1
  · rfl

lemma isArr_keepOrDefault (x d : JsonVal) (hd : isArr d = true) :
    isArr (if isNonEmptyArr x then x else d) = true := by
  split_ifs with h
  · exact isNonEmptyArr_isArr x h
  · exact hd

/-- The object `validateAndFixResponse` returns satisfies the top-level
guarantee whenever `fullName` and `email` are present as strings. -/
lemma topLevelOk_validatedObj (od : JsonVal) (pi : PersonalInfo) (fn em : String)
    (cy : Int) (h1 : pi.fullName = some fn) (h2 : pi.email = some em) :
    topLevelOk (validatedObj od pi fn cy) = true := by
  unfold topLevelOk
  simp only [Bool.and_eq_true]
  refine ⟨⟨⟨⟨⟨⟨⟨⟨?_, ?_⟩, ?_⟩, ?_⟩, ?_⟩, ?_⟩, ?_⟩, ?_⟩, ?_⟩
  · rfl
  · show presentNonNull (jsOr (getField od "name") (optStr pi.fullName)) = true
    rw [h1]
    exact presentNonNull_jsOr_str _ fn
  · show presentNonNull (jsOr (getField od "email") (optStr pi.email)) = true
    rw [h2]
    exact presentNonNull_jsOr_str _ em
  · show isArr (if isNonEmptyArr (getField od "mobileNumbers") then getField od "mobileNumbers"
      else defaultMobileNumbers pi) = true
    exact isArr_keepOrDefault _ _ (isArr_defaultMobileNumbers pi)
  · show presentNonNull (linkedinValue od pi fn) = true
    exact presentNonNull_linkedinValue od pi fn
  · show presentNonNull (summaryValue od fn) = true
    exact presentNonNull_summaryValue od fn
  · show isArr (if isNonEmptyArr (getField od "professionalExperience") then getField od "professionalExperience"
      else defaultValidateExperience) = true
    exact isArr_keepOrDefault _ _ rfl
  · show isArr (if isNonEmptyArr (getField od "skills") then getField od "skills"
      else defaultValidateSkills) = true
    exact isArr_keepOrDefault _ _ rfl
  · show isArr (if isNonEmptyArr (getField od "education") then getField od "education"
      else defaultValidateEducation cy) = true
    exact isArr_keepOrDefault _ _ rfl

/-! ### Helper lemmas about the retry loop -/

lemma delays_shift (a f : Nat) :
    (List.range (f + 1)).map (fun j => 2 ^ (a + j) * 1000) =
      2 ^ a * 1000 :: (List.range f).map (fun j => 2 ^ (a + 1 + j) * 1000) := by
  rw [List.range_succ_eq_map, List.map_cons, List.map_map]
  refine congrArg₂ List.cons (by simp) ?_
  apply List.map_congr_left
  intro j _
  simp only [Function.comp_apply]
  congr 2
  omega

/-- When every attempt from `a` through `a + f` fails, the loop performs
all `f + 1` attempts, sleeps after each but the last, and propagates the
last error. -/
lemma callLoopFuel_all_fail {α : Type} (ts : Nat → Except String α) (em : Nat → String) :
    ∀ (f a : Nat), (∀ i, a ≤ i → i ≤ a + f → ts i = .error (em i)) →
      callLoopFuel ts a f =
        (.error (em (a + f)), f + 1, (List.range f).map (fun j => 2 ^ (a + j) * 1000)) := by
  intro f
  induction f with
  | zero =>
    intro a h
    have ha := h a le_rfl (by omega)
    simp [callLoopFuel, ha]
  | succ f ih =>
    intro a h
    have ha : ts a = .error (em a) := h a le_rfl (by omega)
    have ih' := ih (a + 1) (fun i h1 h2 => h i (by omega) (by omega))
    rw [show a + 1 + f = a + (f + 1) by omega] at ih'
    simp only [callLoopFuel, ha, ih', delays_shift]

/-- When the attempts from `a` up to (excluding) `a + N` fail and attempt
`a + N` succeeds (with `N` within the remaining fuel), the loop succeeds
after exactly `N + 1` transport invocations with `N` backoff sleeps. -/
lemma callLoopFuel_ok {α : Type} (ts : Nat → Except String α) (em : Nat → String) (c : α) :
    ∀ (N a f : Nat), N ≤ f →
      (∀ i, a ≤ i → i < a + N → ts i = .error (em i)) → ts (a + N) = .ok c →
      callLoopFuel ts a f =
        (.ok c, N + 1, (List.range N).map (fun j => 2 ^ (a + j) * 1000)) := by
  intro N
  induction N with
  | zero =>
    intro a f _ _ hok
    simp only [Nat.add_zero] at hok
    cases f <;> simp [callLoopFuel, hok]
  | succ N ih =>
    intro a f hNf hfail hok
    cases f with
    | zero => omega
    | succ g =>
      have ha : ts a = .error (em a) := hfail a le_rfl (by omega)
      have hok' : ts ((a + 1) + N) = .ok c := by
        rw [show (a + 1) + N = a + (N + 1) by omega]
        exact hok
      have ih' := ih (a + 1) g (by omega) (fun i h1 h2 => hfail i (by omega) (by omega)) hok'
      simp only [callLoopFuel, ha, ih', delays_shift]

/-- A successful loop outcome originates from some successful transport
attempt. -/
lemma callLoopFuel_ok_exists {α : Type} (ts : Nat → Except String α) (c : α) :
    ∀ (f a n : Nat) (ds : List Nat),
      callLoopFuel ts a f = (.ok c, n, ds) → ∃ i, ts i = .ok c := by
  intro f
  induction f with
  | zero =>
    intro a n ds h
    simp only [callLoopFuel, Prod.mk.injEq] at h
    exact ⟨a, h.1⟩
  | succ f ih =>
    intro a n ds h
    cases hta : ts a with
    | ok c2 =>
      simp only [callLoopFuel, hta, Prod.mk.injEq, Except.ok.injEq] at h
      exact ⟨a, by rw [hta, h.1]⟩
    | error m =>
      simp only [callLoopFuel, hta, Prod.mk.injEq] at h
      exact ih (a + 1) _ _ (show callLoopFuel ts (a + 1) f = (.ok c, _, _) by rw [← h.1])

lemma truthy_some_str (k : String) (hk : k ≠ "") : truthy (optStr (some k)) = true := by
  simp [optStr, truthy, hk]

lemma delays_one_based (n : Nat) :
    (List.range n).map (fun j => 2 ^ (1 + j) * 1000) =
      (List.range n).map (fun j => 2 ^ (j + 1) * 1000) :=
  List.map_congr_left (fun j _ => by rw [Nat.add_comm 1 j])

/-! ### Claim theorems -/

/-- Claim C3: if every one of the first `maxRetries` transport/envelope
attempts fails, `callGeminiAPI` fails with the `AI_API_FAILED` error
(the spec's BackendExhaustedError) wrapping the message of the last
underlying error, after exactly `maxRetries` transport invocations (no
more, no fewer), having slept the backoff delays `2,4,...` seconds
between consecutive attempts. -/
theorem claim_C3 (k : String) (hk : k ≠ "") (R : Nat) (hR : 1 ≤ R)
    (ts : Nat → Except String String) (em : Nat → String)
    (hfail : ∀ i, 1 ≤ i → i ≤ R → ts i = .error (em i)) :
    callGeminiAPI (some k) R ts =
      (.error (exhaustedErrorApp R (em R)), R,
        (List.range (R - 1)).map (fun j => 2 ^ (j + 1) * 1000)) := by
  obtain ⟨r, rfl⟩ : ∃ r, R = r + 1 := ⟨R - 1, by omega⟩
  have hloop := callLoopFuel_all_fail ts em r 1 (fun i h1 h2 => hfail i h1 (by omega))
  rw [show 1 + r = r + 1 by omega] at hloop
  have hcond : (!truthy (optStr (some k))) = false := by
    rw [truthy_some_str k hk]
    rfl
  unfold callGeminiAPI
  rw [hcond]
  simp only [Bool.false_eq_true, if_false, hloop, delays_one_based, Nat.add_sub_cancel]

/-- Claim C4: if the transport fails on the first `N` attempts and
succeeds on attempt `N + 1` with `N < maxRetries`, `callGeminiAPI`
succeeds, the transport is invoked exactly `N + 1` times, and the
backoff delays slept before retry attempts `2, ..., N + 1` are
`2^1, ..., 2^N` seconds (the sequence 2, 4, 8, ..., in milliseconds). -/
theorem claim_C4 (k : String) (hk : k ≠ "") (R N : Nat) (hN : N < R)
    (ts : Nat → Except String String) (em : Nat → String) (c : String)
    (hfail : ∀ i, 1 ≤ i → i ≤ N → ts i = .error (em i)) (hok : ts (N + 1) = .ok c) :
    callGeminiAPI (some k) R ts =
      (.ok c, N + 1, (List.range N).map (fun j => 2 ^ (j + 1) * 1000)) := by
  obtain ⟨r, rfl⟩ : ∃ r, R = r + 1 := ⟨R - 1, by omega⟩
  have hok1 : ts (1 + N) = .ok c := by
    rw [show 1 + N = N + 1 by omega]
    exact hok
  have hloop := callLoopFuel_ok ts em c N 1 r (by omega)
    (fun i h1 h2 => hfail i h1 (by omega)) hok1
  have hcond : (!truthy (optStr (some k))) = false := by
    rw [truthy_some_str k hk]
    rfl
  unfold callGeminiAPI
  rw [hcond]
  simp only [Bool.false_eq_true, if_false, hloop, delays_one_based]

/-- Claim C5: with no backend API key configured, `callGeminiAPI` fails
immediately with the `AI_API_KEY_MISSING` error (the spec's
ConfigurationError), performing zero transport invocations and no
backoff sleeps. -/
theorem claim_C5 (retries : Nat) (ts : Nat → Except String String) :
    callGeminiAPI none retries ts = (.error configErrorApp, 0, []) := rfl

/-- Transport oracle that fails on every attempt. -/
def tsAllFail : Nat → Except String String := fun _ => .error "network down"

/-- Constant error-message family for the failing transport. -/
def constErrMsg : Nat → String := fun _ => "network down"

/-- Transport oracle that fails on attempts 1 and 2 and succeeds on
attempt 3. -/
def tsFailTwiceThenOk : Nat → Except String String :=
  fun i => if i = 3 then .ok "RESUME" else .error "network down"

theorem claim_C3_witness :
    callGeminiAPI (some "key") 3 tsAllFail =
      (.error (exhaustedErrorApp 3 "network down"), 3, [2000, 4000]) :=
  claim_C3 "key" (by decide) 3 (by omega) tsAllFail constErrMsg (fun i h1 h2 => rfl)

theorem claim_C4_witness :
    callGeminiAPI (some "key") 3 tsFailTwiceThenOk =
      (.ok "RESUME", 3, [2000, 4000]) :=
  claim_C4 "key" (by decide) 3 2 (by omega) tsFailTwiceThenOk constErrMsg "RESUME"
    (fun i h1 h2 => by
      have h3 : i ≠ 3 := by omega
      simp [tsFailTwiceThenOk, h3, constErrMsg])
    (by simp [tsFailTwiceThenOk])

/-- Claim C6: for every expected top-level field, if the backend returns
a parseable JSON object in which that field is absent, the returned
StructuredResume carries the contact-info-derived or generic default for
that field (never absent or null): `fullName` for `name`, `email` for
`email`, the phone-derived list for `mobileNumbers`, the provided or
synthesized URL for `linkedinUrl`, the synthesized summary, and the
generic experience/skills/education arrays. -/
theorem claim_C6 (fs : List (String × JsonVal)) (pi : PersonalInfo) (cy : Int)
    (fn em : String) (h1 : pi.fullName = some fn) (h2 : pi.email = some em) :
    parseResumeResponse (some (.obj fs)) pi cy = .ok (validatedObj (.obj fs) pi fn cy) ∧
    (getField (.obj fs) "name" = .undefined →
      getField (validatedObj (.obj fs) pi fn cy) "name" = .str fn) ∧
    (getField (.obj fs) "email" = .undefined →
      getField (validatedObj (.obj fs) pi fn cy) "email" = .str em) ∧
    (getField (.obj fs) "mobileNumbers" = .undefined →
      getField (validatedObj (.obj fs) pi fn cy) "mobileNumbers" = defaultMobileNumbers pi) ∧
    (getField (.obj fs) "linkedinUrl" = .undefined →
      getField (validatedObj (.obj fs) pi fn cy) "linkedinUrl" =
        (if truthy (optStr pi.linkedinUrl) then optStr pi.linkedinUrl
         else .str (linkedinSlugUrl fn))) ∧
    (getField (.obj fs) "professionalSummary" = .undefined →
      getField (validatedObj (.obj fs) pi fn cy) "professionalSummary" =
        .str (defaultSummaryText fn)) ∧
    (getField (.obj fs) "professionalExperience" = .undefined →
      getField (validatedObj (.obj fs) pi fn cy) "professionalExperience" =
        defaultValidateExperience) ∧
    (getField (.obj fs) "skills" = .undefined →
      getField (validatedObj (.obj fs) pi fn cy) "skills" = defaultValidateSkills) ∧
    (getField (.obj fs) "education" = .undefined →
      getField (validatedObj (.obj fs) pi fn cy) "education" = defaultValidateEducation cy) := by
  refine ⟨validateAndFixResponse_eq (.obj fs) pi fn cy rfl h1, ?_, ?_, ?_, ?_, ?_, ?_, ?_, ?_⟩
  · intro h
    show jsOr (getField (.obj fs) "name") (optStr pi.fullName) = .str fn
    rw [h, h1]
    rfl
  · intro h
    show jsOr (getField (.obj fs) "email") (optStr pi.email) = .str em
    rw [h, h2]
    rfl
  · intro h
    show (if isNonEmptyArr (getField (.obj fs) "mobileNumbers")
      then getField (.obj fs) "mobileNumbers" else defaultMobileNumbers pi) = defaultMobileNumbers pi
    rw [h]
    rfl
  · intro h
    show linkedinValue (.obj fs) pi fn = _
    unfold linkedinValue
    rw [h]
    rfl
  · intro h
    show summaryValue (.obj fs) fn = .str (defaultSummaryText fn)
    unfold summaryValue
    rw [h]
    rfl
  · intro h
    show (if isNonEmptyArr (getField (.obj fs) "professionalExperience")
      then getField (.obj fs) "professionalExperience" else defaultValidateExperience) =
        defaultValidateExperience
    rw [h]
    rfl
  · intro h
    show (if isNonEmptyArr (getField (.obj fs) "skills")
      then getField (.obj fs) "skills" else defaultValidateSkills) = defaultValidateSkills
    rw [h]
    rfl
  · intro h
    show (if isNonEmptyArr (getField (.obj fs) "education")
      then getField (.obj fs) "education" else defaultValidateEducation cy) =
        defaultValidateEducation cy
    rw [h]
    rfl

/-- The valid CompletionRequest contact info used by the witnesses. -/
def pi0 : PersonalInfo := ⟨some "Ana Lee", some "ana@x.com", none, none, none⟩

theorem claim_C6_witness :
    getField (validatedObj (.obj []) pi0 "Ana Lee" 2025) "email" = .str "ana@x.com" :=
  (claim_C6 [] pi0 2025 "Ana Lee" "ana@x.com" rfl rfl).2.2.1 rfl

/-- Claim C7: if the backend returns valid JSON in which every expected
field is present and well-typed (non-empty strings, non-empty arrays of
the documented element shape), the repair pass is lossless: the returned
StructuredResume is exactly that object. -/
theorem claim_C7 (pi : PersonalInfo) (cy : Int) (n em lu ps : String)
    (ms pe sk ed : List JsonVal)
    (hn : n ≠ "") (he : em ≠ "") (hl : lu ≠ "") (hp : ps ≠ "")
    (hms : ms ≠ []) (hpe : pe ≠ []) (hsk : sk ≠ []) (hed : ed ≠ [])
    (hms2 : ms.all isStr = true) (hpe2 : pe.all expEntryOk = true)
    (hsk2 : sk.all skillEntryOk = true) (hed2 : ed.all eduEntryOk = true) :
    parseResumeResponse (some (.obj [("name", .str n), ("email", .str em),
      ("mobileNumbers", .arr ms), ("linkedinUrl", .str lu),
      ("professionalSummary", .str ps), ("professionalExperience", .arr pe),
      ("skills", .arr sk), ("education", .arr ed)])) pi cy =
    .ok (.obj [("name", .str n), ("email", .str em),
      ("mobileNumbers", .arr ms), ("linkedinUrl", .str lu),
      ("professionalSummary", .str ps), ("professionalExperience", .arr pe),
      ("skills", .arr sk), ("education", .arr ed)]) := by
  have hn' : truthy (JsonVal.str n) = true := by simp [truthy, hn]
  have he' : truthy (JsonVal.str em) = true := by simp [truthy, he]
  have hl' : truthy (JsonVal.str lu) = true := by simp [truthy, hl]
  have hp' : truthy (JsonVal.str ps) = true := by simp [truthy, hp]
  have hms' : isNonEmptyArr (JsonVal.arr ms) = true := by
    cases ms with
    | nil => exact absurd rfl hms
    | cons a l => rfl
  have hpe' : isNonEmptyArr (JsonVal.arr pe) = true := by
    cases pe with
    | nil => exact absurd rfl hpe
    | cons a l => rfl
  have hsk' : isNonEmptyArr (JsonVal.arr sk) = true := by
    cases sk with
    | nil => exact absurd rfl hsk
    | cons a l => rfl
  have hed' : isNonEmptyArr (JsonVal.arr ed) = true := by
    cases ed with
    | nil => exact absurd rfl hed
    | cons a l => rfl
  show validateAndFixResponse (JsonVal.obj [("name", .str n), ("email", .str em),
    ("mobileNumbers", .arr ms), ("linkedinUrl", .str lu),
    ("professionalSummary", .str ps), ("professionalExperience", .arr pe),
    ("skills", .arr sk), ("education", .arr ed)]) pi cy = _
  unfold validateAndFixResponse fixLinkedinUrl fixProfessionalSummary
  simp only [show ∀ v w x y z u t s, jsPropAccessError (JsonVal.obj [("name", v), ("email", w),
    ("mobileNumbers", x), ("linkedinUrl", y), ("professionalSummary", z),
    ("professionalExperience", u), ("skills", t), ("education", s)]) = none
    from fun _ _ _ _ _ _ _ _ => rfl]
  simp only [show ∀ key, getField (JsonVal.obj [("name", JsonVal.str n), ("email", .str em),
    ("mobileNumbers", .arr ms), ("linkedinUrl", .str lu),
    ("professionalSummary", .str ps), ("professionalExperience", .arr pe),
    ("skills", .arr sk), ("education", .arr ed)]) key = lookupField [("name", JsonVal.str n),
    ("email", .str em), ("mobileNumbers", .arr ms), ("linkedinUrl", .str lu),
    ("professionalSummary", .str ps), ("professionalExperience", .arr pe),
    ("skills", .arr sk), ("education", .arr ed)] key from fun _ => rfl]
  simp [lookupField, hn', he', hl', hp', hms', hpe', hsk', hed', jsOr]

/-- A fully well-typed model response, kept unchanged by the repair pass. -/
def od0 : JsonVal :=
  .obj [("name", .str "Ana Lee"), ("email", .str "ana@x.com"),
    ("mobileNumbers", .arr [.str "+1-555-0100"]),
    ("linkedinUrl", .str "https://linkedin.com/in/ana-lee"),
    ("professionalSummary", .str "Seasoned backend engineer."),
    ("professionalExperience", .arr [.obj [("jobName", .str "Acme"),
      ("term", .str "2020 - 2024"), ("jobDesignation", .str "Engineer"),
      ("jobDetails", .arr [.str "Built systems"])]]),
    ("skills", .arr [.obj [("skillName", .str "Core"),
      ("skills", .arr [.str "Python"])]]),
    ("education", .arr [.obj [("degree", .str "BS"),
      ("collegeName", .str "State U"), ("tenure", .str "2012 - 2016")]])]

theorem claim_C7_witness : parseResumeResponse (some od0) pi0 2025 = .ok od0 :=
  claim_C7 pi0 2025 "Ana Lee" "ana@x.com" "https://linkedin.com/in/ana-lee"
    "Seasoned backend engineer." [.str "+1-555-0100"]
    [.obj [("jobName", .str "Acme"), ("term", .str "2020 - 2024"),
      ("jobDesignation", .str "Engineer"), ("jobDetails", .arr [.str "Built systems"])]]
    [.obj [("skillName", .str "Core"), ("skills", .arr [.str "Python"])]]
    [.obj [("degree", .str "BS"), ("collegeName", .str "State U"),
      ("tenure", .str "2012 - 2016")]]
    (by decide) (by decide) (by decide) (by decide)
    (List.cons_ne_nil _ _) (List.cons_ne_nil _ _) (List.cons_ne_nil _ _)
    (List.cons_ne_nil _ _) rfl rfl rfl rfl

/-- Claim C9: whatever reaches the validation/repair stage, any object it
returns has exactly the eight documented fields as its key set, in the
documented order; extra fields of the parsed model output never survive. -/
theorem claim_C9 (od : JsonVal) (pi : PersonalInfo) (cy : Int) (r : JsonVal)
    (h : validateAndFixResponse od pi cy = .ok r) : keysOf r = resumeKeys := by
  unfold validateAndFixResponse at h
  split at h
  · exact Except.noConfusion h
  · split at h
    · exact Except.noConfusion h
    · split at h
      · exact Except.noConfusion h
      · injection h with h2
        rw [← h2]
        rfl

theorem claim_C9_witness : keysOf od0 = resumeKeys :=
  claim_C9 od0 pi0 2025 od0 (by rfl)

/-- Claim C10: the repair and fallback paths dereference
`personalInfo.fullName` (`toLowerCase`/`split`) exactly when a default
`linkedinUrl` or `professionalSummary` must be synthesized; with
`fullName` absent they then throw a TypeError instead of returning a
StructuredResume, and with `fullName` present as a string that error
branch is unreachable (both functions return a fully-built object for
every non-nullish input). -/
theorem claim_C10 (pi : PersonalInfo) (cy : Int) :
    (pi.fullName = none →
      ∀ od, presentNonNull od = true →
        ((truthy (getField od "linkedinUrl") = false ∧
          truthy (optStr pi.linkedinUrl) = false) ∨
         truthy (getField od "professionalSummary") = false) →
        validateAndFixResponse od pi cy = .error typeErrorUndefined) ∧
    (∀ fn, pi.fullName = some fn →
      ∀ od, presentNonNull od = true →
        validateAndFixResponse od pi cy = .ok (validatedObj od pi fn cy)) ∧
    (pi.fullName = none → truthy (optStr pi.linkedinUrl) = false →
      createFallbackResponse pi cy = .error typeErrorUndefined) ∧
    (∀ fn, pi.fullName = some fn →
      createFallbackResponse pi cy = .ok (fallbackObj pi fn cy)) := by
  refine ⟨?_, ?_, ?_, ?_⟩
  · intro hfn od hod hsynth
    have hsy : synthLinkedinUrl pi = .error typeErrorUndefined := by
      unfold synthLinkedinUrl
      rw [hfn]
    unfold validateAndFixResponse
    rw [jsPropAccessError_none od hod]
    rcases hsynth with ⟨ha, hb⟩ | hc
    · have hfl : fixLinkedinUrl od pi = .error typeErrorUndefined := by
        unfold fixLinkedinUrl
        rw [ha, hb, hsy]
        simp
      simp [hfl]
    · cases hfl : fixLinkedinUrl od pi with
      | error e =>
        have he : e = typeErrorUndefined := by
          unfold fixLinkedinUrl at hfl
          rw [hsy] at hfl
          split_ifs at hfl
          all_goals first
            | exact Except.noConfusion hfl
            | (injection hfl with h9; exact h9.symm)
        subst he
        simp [hfl]
      | ok l =>
        have hfs : fixProfessionalSummary od pi = .error typeErrorUndefined := by
          unfold fixProfessionalSummary
          rw [hc, hfn]
          simp
        simp [hfl, hfs]
  · exact fun fn hfn od hod => validateAndFixResponse_eq od pi fn cy hod hfn
  · intro hfn hlu
    have hsy : synthLinkedinUrl pi = .error typeErrorUndefined := by
      unfold synthLinkedinUrl
      rw [hfn]
    unfold createFallbackResponse
    rw [hlu, hsy]
    simp
  · exact fun fn hfn => createFallbackResponse_eq pi fn cy hfn

/-- Contact info with `fullName` absent, used by the C10 witness. -/
def piNoName : PersonalInfo := ⟨none, some "ana@x.com", none, none, none⟩

theorem claim_C10_witness :
    validateAndFixResponse (.obj []) piNoName 2025 = .error typeErrorUndefined ∧
    createFallbackResponse pi0 2025 = .ok (fallbackObj pi0 "Ana Lee" 2025) :=
  ⟨(claim_C10 piNoName 2025).1 rfl (.obj []) rfl (Or.inl ⟨rfl, rfl⟩),
   (claim_C10 pi0 2025).2.2.2 "Ana Lee" rfl⟩

/-- Claim C1 (amended): for every valid CompletionRequest (`fullName` and
`email` present) and every `JSON.parse` outcome of the backend body
(success with any non-nullish value, or parse failure), the repair
pipeline returns an object with exactly the eight documented fields,
each present and neither null nor undefined, the four sequence fields
being genuine arrays.  A body parsing to JSON `null` makes the repair
stage throw instead, and scalar-field typing and the shape of elements
nested in the three sequences are not guaranteed (see the
counterexample). -/
theorem claim_C1 (parsed : Option JsonVal) (pi : PersonalInfo) (cy : Int)
    (fn em : String) (h1 : pi.fullName = some fn) (h2 : pi.email = some em)
    (hnull : parsed ≠ some .null) (hundef : parsed ≠ some .undefined) :
    Except.map topLevelOk (parseResumeResponse parsed pi cy) = .ok true := by
  cases parsed with
  | none =>
    have hfb := createFallbackResponse_eq pi fn cy h1
    have hv := validateAndFixResponse_eq (fallbackObj pi fn cy) pi fn cy rfl h1
    show Except.map topLevelOk (parseResumeResponse none pi cy) = .ok true
    unfold parseResumeResponse
    simp only [hfb, hv, Except.map]
    rw [topLevelOk_validatedObj (fallbackObj pi fn cy) pi fn em cy h1 h2]
  | some v =>
    have hpres : presentNonNull v = true := by
      cases v <;> simp_all [presentNonNull]
    have hv := validateAndFixResponse_eq v pi fn cy hpres h1
    show Except.map topLevelOk (validateAndFixResponse v pi cy) = .ok true
    rw [hv]
    simp only [Except.map]
    rw [topLevelOk_validatedObj v pi fn em cy h1 h2]

theorem claim_C1_witness :
    Except.map topLevelOk (parseResumeResponse (some (.obj [])) pi0 2025) = .ok true :=
  claim_C1 (some (.obj [])) pi0 2025 "Ana Lee" "ana@x.com" rfl rfl
    (by intro h; injection h with h2; exact JsonVal.noConfusion h2)
    (by intro h; injection h with h2; exact JsonVal.noConfusion h2)

/-- A parseable model response carrying a non-string `name` and a `null`
element inside `professionalExperience`; both survive the repair pass. -/
def od1 : JsonVal := .obj [("name", .num 5), ("professionalExperience", .arr [.null])]

/-- Counterexample to claim C1 as stated: on the valid request (`fullName`
"Ana Lee", `email` "ana@x.com") and the well-formed JSON body
`{"name": 5, "professionalExperience": [null]}`, the repair pipeline
returns a StructuredResume whose `name` is the number `5` (not a string)
and whose `professionalExperience` still contains a `null` element — so
the result is not well-typed down to the leaves as the claim states. -/
theorem claim_C1_counterexample :
    Except.map structuredResumeWellFormed (parseResumeResponse (some od1) pi0 2025) = .ok false ∧
    Except.map (fun r => getField r "name") (parseResumeResponse (some od1) pi0 2025) =
      .ok (.num 5) ∧
    Except.map (fun r => getField r "professionalExperience")
      (parseResumeResponse (some od1) pi0 2025) = .ok (.arr [.null]) :=
  ⟨rfl, rfl, rfl⟩

lemma callGeminiAPI_succ {α : Type} (apiKey : Option String)
    (hk : truthy (optStr apiKey) = true) (r : Nat) (ts : Nat → Except String α) :
    callGeminiAPI apiKey (r + 1) ts =
      match callLoopFuel ts 1 r with
      | (.ok c, n, ds) => (.ok c, n, ds)
      | (.error msg, n, ds) => (.error (exhaustedErrorApp (r + 1) msg), n, ds) := by
  unfold callGeminiAPI
  rw [hk]
  simp

lemma callGeminiAPI_cases {α : Type} (apiKey : Option String) (r : Nat)
    (ts : Nat → Except String α) (hk : truthy (optStr apiKey) = true) :
    (∃ c n ds, callGeminiAPI apiKey (r + 1) ts = (.ok c, n, ds) ∧ ∃ i, ts i = .ok c) ∨
    (∃ m n ds, callGeminiAPI apiKey (r + 1) ts =
      (.error (exhaustedErrorApp (r + 1) m), n, ds)) := by
  rw [callGeminiAPI_succ apiKey hk r ts]
  obtain ⟨⟨res, n, ds⟩, hl⟩ : ∃ t, callLoopFuel ts 1 r = t := ⟨_, rfl⟩
  rw [hl]
  cases res with
  | ok c => exact Or.inl ⟨c, n, ds, rfl, callLoopFuel_ok_exists ts c r 1 n ds hl⟩
  | error m => exact Or.inr ⟨m, n, ds, rfl⟩

/-- Claim C2 (amended): for every valid CompletionRequest, a JSON parse
failure is never propagated — it is replaced by the fallback object —
and the error escaping `optimizeResume` (always surfaced as the
`RESUME_OPTIMIZATION_FAILED` wrapper) wraps one of exactly three causes:
the `AI_API_KEY_MISSING` configuration error, the `AI_API_FAILED`
retry-exhaustion error, or — the case the original claim misses — the
TypeError thrown by the repair stage when a successful attempt's body
parses to JSON `null`. -/
theorem claim_C2 (apiKey : Option String) (retries : Nat)
    (ts : Nat → Except String (Option JsonVal)) (pi : PersonalInfo) (cy : Int)
    (fn em : String) (h1 : pi.fullName = some fn) (h2 : pi.email = some em)
    (hr : 1 ≤ retries) (hts : ∀ i, ts i ≠ .ok (some .undefined)) :
    (∃ r, (optimizeResume apiKey retries ts pi cy).1 = .ok r) ∨
    (optimizeResume apiKey retries ts pi cy).1 = .error (wrapOptimizeError configErrorApp) ∨
    (∃ m, (optimizeResume apiKey retries ts pi cy).1 =
      .error (wrapOptimizeError (exhaustedErrorApp retries m))) ∨
    ((optimizeResume apiKey retries ts pi cy).1 = .error (wrapOptimizeError typeErrorNull) ∧
      ∃ i, ts i = .ok (some .null)) := by
  cases hk : truthy (optStr apiKey) with
  | false =>
    right
    left
    unfold optimizeResume callGeminiAPI
    rw [hk]
    simp
  | true =>
    obtain ⟨r, rfl⟩ : ∃ r, retries = r + 1 := ⟨retries - 1, by omega⟩
    rcases callGeminiAPI_cases apiKey r ts hk with ⟨c, n, ds, hcall, i, hi⟩ | ⟨m, n, ds, hcall⟩
    · have hopt : optimizeResume apiKey (r + 1) ts pi cy =
          match parseResumeResponse c pi cy with
          | .ok r2 => (.ok r2, n, ds)
          | .error e => (.error (wrapOptimizeError e), n, ds) := by
        unfold optimizeResume
        rw [hcall]
      cases c with
      | none =>
        left
        refine ⟨validatedObj (fallbackObj pi fn cy) pi fn cy, ?_⟩
        have hp : parseResumeResponse none pi cy =
            .ok (validatedObj (fallbackObj pi fn cy) pi fn cy) := by
          unfold parseResumeResponse
          simp only [createFallbackResponse_eq pi fn cy h1]
          exact validateAndFixResponse_eq (fallbackObj pi fn cy) pi fn cy rfl h1
        rw [hopt, hp]
      | some v =>
        by_cases hvn : v = .null
        · subst hvn
          right
          right
          right
          refine ⟨?_, i, hi⟩
          rw [hopt]
          rfl
        · have hvu : v ≠ .undefined := fun hv2 => hts i (by rw [hi, hv2])
          have hpres : presentNonNull v = true := by
            cases v <;> simp_all [presentNonNull]
          left
          refine ⟨validatedObj v pi fn cy, ?_⟩
          have hp : parseResumeResponse (some v) pi cy = .ok (validatedObj v pi fn cy) :=
            validateAndFixResponse_eq v pi fn cy hpres h1
          rw [hopt, hp]
    · right
      right
      left
      refine ⟨m, ?_⟩
      unfold optimizeResume
      rw [hcall]

/-- Transport oracle whose every attempt succeeds with a body parsing to
the empty JSON object. -/
def tsOkEmptyObj : Nat → Except String (Option JsonVal) := fun _ => .ok (some (.obj []))

theorem claim_C2_witness :
    (∃ r, (optimizeResume (some "key") 3 tsOkEmptyObj pi0 2025).1 = .ok r) ∨
    (optimizeResume (some "key") 3 tsOkEmptyObj pi0 2025).1 =
      .error (wrapOptimizeError configErrorApp) ∨
    (∃ m, (optimizeResume (some "key") 3 tsOkEmptyObj pi0 2025).1 =
      .error (wrapOptimizeError (exhaustedErrorApp 3 m))) ∨
    ((optimizeResume (some "key") 3 tsOkEmptyObj pi0 2025).1 =
      .error (wrapOptimizeError typeErrorNull) ∧
      ∃ i, tsOkEmptyObj i = .ok (some .null)) :=
  claim_C2 (some "key") 3 tsOkEmptyObj pi0 2025 "Ana Lee" "ana@x.com" rfl rfl
    (by omega)
    (fun i h => by
      injection h with h2
      injection h2 with h3
      exact JsonVal.noConfusion h3)

/-- Transport oracle succeeding immediately with a body that parses to
JSON `null` (for example the raw model text `null`). -/
def tsNullBody : Nat → Except String (Option JsonVal) := fun _ => .ok (some .null)

/-- Counterexample to claim C2 as stated: with a configured key and a
successful first attempt whose body parses to JSON `null` (raw model
text `null` is valid JSON with no braces, so the cleaning step leaves it
intact and `JSON.parse` yields `null`), the repair stage throws a
TypeError which escapes `optimizeResume` — an error that is neither the
configuration error nor the retry-exhaustion error. -/
theorem claim_C2_counterexample :
    (optimizeResume (some "key") 3 tsNullBody pi0 2025).1 =
      .error (.appError "Failed to optimize resume: Cannot read properties of null"
        500 "RESUME_OPTIMIZATION_FAILED") ∧
    (optimizeResume (some "key") 3 tsNullBody pi0 2025).1 ≠
      .error configErrorApp ∧
    ∀ m, (optimizeResume (some "key") 3 tsNullBody pi0 2025).1 ≠
      .error (exhaustedErrorApp 3 m) := by
  have h0 : (optimizeResume (some "key") 3 tsNullBody pi0 2025).1 =
      .error (.appError "Failed to optimize resume: Cannot read properties of null"
        500 "RESUME_OPTIMIZATION_FAILED") := rfl
  refine ⟨h0, ?_, ?_⟩
  · rw [h0]
    intro h
    unfold configErrorApp at h
    injection h with h2
    injection h2 with h3 h4 h5
    exact absurd h5 (by decide)
  · intro m
    rw [h0]
    intro h
    unfold exhaustedErrorApp at h
    injection h with h2
    injection h2 with h3 h4 h5
    exact absurd h5 (by decide)

lemma makeRequest_fst (s : ProcState) : (makeRequest s).1 = s := by
  obtain ⟨hc⟩ := s
  cases hc <;> rfl

lemma runRequests_const (s : ProcState) :
    ∀ n, (runRequests s n).1 = s ∧
      (runRequests s n).2 = List.replicate n (makeRequest s).2 := by
  intro n
  induction n with
  | zero => exact ⟨rfl, rfl⟩
  | succ n ih =>
    unfold runRequests
    rw [makeRequest_fst]
    exact ⟨ih.1, by rw [ih.2, List.replicate_succ]⟩

/-- Claim C8 (amended): transport selection tries the candidates in the
fixed order node-fetch polyfill first, then the built-in fetch API, then
the raw `https`-module client, and binds to the first one that
initializes without error (the raw client always does); the binding is
computed once at module load and every subsequent `makeRequest` call
leaves it unchanged and is served by that same bound client. -/
theorem claim_C8 (env : HttpEnv) (n : Nat) :
    initializeHttpClient env = codeClientOrder.find? (clientAvailable env) ∧
    (∃ c, initializeHttpClient env = some c ∧
      (runRequests (moduleLoad env) n).1 = moduleLoad env ∧
      (runRequests (moduleLoad env) n).2 = List.replicate n (.ok c)) := by
  obtain ⟨nf, bf⟩ := env
  refine ⟨by cases nf <;> cases bf <;> rfl, ?_⟩
  obtain ⟨c, hc⟩ : ∃ c, initializeHttpClient ⟨nf, bf⟩ = some c := by
    cases nf <;> cases bf <;> exact ⟨_, rfl⟩
  refine ⟨c, hc, (runRequests_const _ n).1, ?_⟩
  rw [(runRequests_const _ n).2]
  congr 1
  show (makeRequest (moduleLoad ⟨nf, bf⟩)).2 = .ok c
  simp [makeRequest, moduleLoad, hc]

/-- Counterexample to claim C8 as stated: in an environment where both
the node-fetch polyfill and the standard built-in fetch are available,
the code binds the polyfill, whereas the claimed preference order
(standard fetch-like API first) would bind the built-in fetch. -/
theorem claim_C8_counterexample :
    initializeHttpClient ⟨true, true⟩ = some ClientKind.nodeFetch ∧
    claimedInitialize ⟨true, true⟩ = some ClientKind.builtinFetch ∧
    initializeHttpClient ⟨true, true⟩ ≠ claimedInitialize ⟨true, true⟩ := by
  exact ⟨rfl, rfl, by decide⟩

end ResumeBuilder
